import Mathlib

/-!
Shallow embedding of the network monitoring core of the `trace` repository
(`packages/core/src/network.ts`): signal readers, classifier, latency probe
statistics, and the `NetworkMonitor` state machine, together with theorems
checking the natural-language specification against this code.

JavaScript truthiness is modelled explicitly: a check `if (x)` on an optional
string field is false for an absent field and for the empty string, and on an
optional numeric field it is false for an absent field and for the value `0`.
Numbers are modelled as rationals (`ℚ`); `NaN` is outside the model.
-/

/-- `NetworkType` enum from `network.ts`. -/
inductive NetworkType where
  | unknown
  | ethernet
  | wifi
  | cellular
  | cellular2g
  | cellular3g
  | cellular4g
  | cellular5g
  | offline
deriving DecidableEq, Repr

/-- `NetworkSpeed` enum from `network.ts`. -/
inductive NetworkSpeed where
  | unknown
  | slow
  | moderate
  | good
  | excellent
deriving DecidableEq, Repr

/-- The raw connection descriptor exposed by the environment
(`navigator.connection`); every field may be absent. -/
structure Connection where
  type : Option String
  effectiveType : Option String
  downlink : Option ℚ
  rtt : Option ℚ
  saveData : Option Bool
deriving DecidableEq, Repr

/-- The ambient host environment the functions in `network.ts` read from:
whether `window` exists, whether `navigator` exists, the value of
`navigator.onLine` when the property exists, and the connection descriptor
(`navigator.connection || navigator.mozConnection || navigator.webkitConnection`)
when one exists. -/
structure Env where
  hasWindow : Bool
  hasNavigator : Bool
  onLine : Option Bool
  connection : Option Connection
deriving DecidableEq, Repr

/-- JS truthiness of an optional string: absent and `""` are falsy. -/
def strTruthy : Option String → Bool
  | none => false
  | some s => s ≠ ""

/-- JS truthiness of an optional number: absent and `0` are falsy
(`NaN` is outside the model). -/
def numTruthy : Option ℚ → Bool
  | none => false
  | some q => q ≠ 0

/-- `isOnline()`: returns `navigator.onLine` when `navigator` exists and has
the property; otherwise `true` (fail open). -/
def isOnline (env : Env) : Bool :=
  match (if env.hasNavigator then env.onLine else none) with
  | some b => b
  | none => true

/-- `getNetworkConnection()`: the descriptor, or `none` when `navigator` is
undefined or exposes no connection object. -/
def getNetworkConnection (env : Env) : Option Connection :=
  if env.hasNavigator then env.connection else none

/-- The `switch (connection.effectiveType)` nested inside the cellular
case of `getNetworkType` (default and falsy `effectiveType` both yield
`CELLULAR`). -/
def cellularRefine (effectiveType : Option String) : NetworkType :=
  match effectiveType with
  | some et =>
    if et = "slow-2g" ∨ et = "2g" then NetworkType.cellular2g
    else if et = "3g" then NetworkType.cellular3g
    else if et = "4g" then NetworkType.cellular4g
    else NetworkType.cellular
  | none => NetworkType.cellular

/-- `getNetworkType()` from `network.ts`, with JS truthiness on the guards
`if (connection.type)`, `if (connection.effectiveType)` and
`if (connection.downlink && connection.rtt)`. -/
def getNetworkType (env : Env) : NetworkType :=
  if isOnline env = false then NetworkType.offline
  else
    match getNetworkConnection env with
    | none => NetworkType.unknown
    | some c =>
      if strTruthy c.type then
        match c.type.getD "" with
        | "ethernet" => NetworkType.ethernet
        | "wifi" => NetworkType.wifi
        | "cellular" => cellularRefine c.effectiveType
        | _ => NetworkType.unknown
      else if strTruthy c.effectiveType then
        match c.effectiveType.getD "" with
        | "slow-2g" => NetworkType.cellular2g
        | "2g" => NetworkType.cellular2g
        | "3g" => NetworkType.cellular3g
        | "4g" => NetworkType.cellular4g
        | _ => NetworkType.unknown
      else if numTruthy c.downlink ∧ numTruthy c.rtt then
        if c.downlink.getD 0 ≥ 50 ∧ c.rtt.getD 0 < 30 then NetworkType.cellular5g
        else NetworkType.unknown
      else NetworkType.unknown

/-- `getNetworkSpeed()` from `network.ts`; note the falsy guard
`!connection.downlink` treats a present `downlink` of `0` like an absent one. -/
def getNetworkSpeed (env : Env) : NetworkSpeed :=
  if isOnline env = false then NetworkSpeed.unknown
  else
    match getNetworkConnection env with
    | none => NetworkSpeed.unknown
    | some c =>
      if numTruthy c.downlink = false then NetworkSpeed.unknown
      else
        let d := c.downlink.getD 0
        if d < 1/2 then NetworkSpeed.slow
        else if d < 2 then NetworkSpeed.moderate
        else if d < 10 then NetworkSpeed.good
        else NetworkSpeed.excellent

/-- `NetworkInfo` snapshot from `network.ts`. -/
structure NetworkInfo where
  online : Bool
  type : NetworkType
  speed : NetworkSpeed
  downlink : Option ℚ
  rtt : Option ℚ
  effectiveType : Option String
  saveData : Option Bool
deriving DecidableEq, Repr

/-- `getNetworkInfo()` from `network.ts`: `downlink`, `rtt` and `saveData`
are copied whenever present (the `typeof` checks for number / boolean), while
`effectiveType` is copied only when truthy. -/
def getNetworkInfo (env : Env) : NetworkInfo :=
  let online := isOnline env
  let type := getNetworkType env
  let speed := getNetworkSpeed env
  match getNetworkConnection env with
  | none =>
    { online := online, type := type, speed := speed,
      downlink := none, rtt := none, effectiveType := none, saveData := none }
  | some c =>
    { online := online, type := type, speed := speed,
      downlink := c.downlink, rtt := c.rtt,
      effectiveType := if strTruthy c.effectiveType then c.effectiveType else none,
      saveData := c.saveData }

/-! ## Latency probe statistics (`measureNetworkLatency`) -/

/-- Errors a probe can fail with; `noSamples` is the
`throw new Error(...)` case at the end of the sampling loop. -/
inductive ProbeError where
  | noSamples
deriving DecidableEq, Repr

/-- One round trip of the latency probe: `some d` when the `fetch` succeeded
after wall-clock duration `d` ms, `none` when it threw (logged and skipped). -/
abbrev RoundTrip := Option ℚ

/-- The outlier-trimming block of `measureNetworkLatency`
(`results.sort((a, b) => a - b); results.shift(); results.pop();`): when more
than two samples succeeded, sort ascending and drop the first (one minimum)
and the last (one maximum) element; otherwise keep the results unchanged. -/
def trimOutliers (results : List ℚ) : List ℚ :=
  if results.length > 2 then
    ((results.insertionSort (· ≤ ·)).drop 1).dropLast
  else results

/-- `measureNetworkLatency` from `network.ts`, abstracted over the outcome of
each of its sequential round trips: collects the successful durations in
order, fails with `noSamples` when none succeeded, and returns the
arithmetic mean of the (possibly trimmed) successful durations. -/
def measureNetworkLatency (outcomes : List RoundTrip) : Except ProbeError ℚ :=
  if (outcomes.filterMap id).length = 0 then Except.error ProbeError.noSamples
  else
    Except.ok ((trimOutliers (outcomes.filterMap id)).sum /
      ((trimOutliers (outcomes.filterMap id)).length : ℚ))

/-! ## The `NetworkMonitor` state machine -/

/-- A registered listener: `id` stands for the JS reference identity of the
callback (two registrations of the same function share the `id`), and
`throws` says whether invoking it raises. -/
structure Listener where
  id : ℕ
  throws : Bool
deriving DecidableEq, Repr

/-- Invoking a listener callback with a snapshot. -/
def invokeListener (l : Listener) (_info : NetworkInfo) : Except String Unit :=
  if l.throws then Except.error "listener error" else Except.ok ()

/-- The invocation log of one notification or registration: each entry is a
listener id paired with the snapshot it was called with, in call order. -/
abbrev CallLog := List (ℕ × NetworkInfo)

/-- `_notifyListeners` from `network.ts`: `forEach` over the registry with a
`try { listener(info) } catch { console.error(...) }` body — the call is
made, a raised error is swallowed, and iteration continues either way. -/
def notifyListeners : List Listener → NetworkInfo → CallLog
  | [], _ => []
  | l :: rest, info =>
    match invokeListener l info with
    | Except.ok _ => (l.id, info) :: notifyListeners rest info
    | Except.error _ => (l.id, info) :: notifyListeners rest info

/-- `_hasNetworkInfoChanged`: field-wise disjunction of `!==` over the seven
`NetworkInfo` fields. -/
def hasNetworkInfoChanged (oldInfo newInfo : NetworkInfo) : Bool :=
  decide (oldInfo.online ≠ newInfo.online) ||
  decide (oldInfo.type ≠ newInfo.type) ||
  decide (oldInfo.speed ≠ newInfo.speed) ||
  decide (oldInfo.downlink ≠ newInfo.downlink) ||
  decide (oldInfo.rtt ≠ newInfo.rtt) ||
  decide (oldInfo.effectiveType ≠ newInfo.effectiveType) ||
  decide (oldInfo.saveData ≠ newInfo.saveData)

/-- The mutable state of a `NetworkMonitor` instance. `windowAttached` says
whether the `online`/`offline` window listeners are attached,
`connAttached` whether a `change` handler is attached to the connection
object, `hasCleanup` whether `_cleanup` is non-null, `pollingId` whether a
live interval timer exists. -/
structure Monitor where
  networkInfo : NetworkInfo
  listeners : List Listener
  windowAttached : Bool
  connAttached : Bool
  hasCleanup : Bool
  pollingInterval : Option ℤ
  pollingId : Bool
deriving DecidableEq, Repr

/-- `new NetworkMonitor(pollingIntervalMs)`: computes the initial snapshot,
runs `_setupListeners` (which returns immediately — attaching nothing and
leaving `_cleanup` null — when `window` is undefined), and starts the
interval timer whenever `pollingIntervalMs > 0`. -/
def NetworkMonitor.init (env : Env) (pollingIntervalMs : ℤ) : Monitor :=
  { networkInfo := getNetworkInfo env
    listeners := []
    windowAttached := env.hasWindow
    connAttached := env.hasWindow && (getNetworkConnection env).isSome
    hasCleanup := env.hasWindow
    pollingInterval := if pollingIntervalMs > 0 then some pollingIntervalMs else none
    pollingId := pollingIntervalMs > 0 }

/-- `addListener`: pushes the listener, then calls it once with the current
snapshot. Returns the new state and the invocation log of that immediate
call. -/
def addListener (m : Monitor) (l : Listener) : Monitor × CallLog :=
  ({ m with listeners := m.listeners ++ [l] }, [(l.id, m.networkInfo)])

/-- The unsubscribe closure returned by `addListener`:
`this._listeners = this._listeners.filter(x => x !== listener)` — removal is
by function identity. -/
def unsubscribe (m : Monitor) (l : Listener) : Monitor :=
  { m with listeners := m.listeners.filter (fun x => x ≠ l) }

/-- `refreshNetworkInfo()`: recomputes and stores the snapshot, notifies the
listeners when it changed field-wise, and returns the stored snapshot.
Result: `(new state, returned snapshot, invocation log)`. -/
def refreshNetworkInfo (m : Monitor) (env : Env) : Monitor × NetworkInfo × CallLog :=
  let previousInfo := m.networkInfo
  let newInfo := getNetworkInfo env
  let m' := { m with networkInfo := newInfo }
  if hasNetworkInfoChanged previousInfo newInfo then
    (m', newInfo, notifyListeners m'.listeners newInfo)
  else
    (m', newInfo, [])

/-- The shared body of the three event callbacks installed by
`_setupListeners` (online, offline, connection `change`): recompute, and only
when changed, store the new snapshot and notify. -/
def handleTrigger (m : Monitor) (env : Env) : Monitor × CallLog :=
  let newInfo := getNetworkInfo env
  if hasNetworkInfoChanged m.networkInfo newInfo then
    let m' := { m with networkInfo := newInfo }
    (m', notifyListeners m'.listeners newInfo)
  else
    (m, [])

/-- An environment-level occurrence that can reach the monitor. -/
inductive EnvEvent where
  | becameOnline
  | becameOffline
  | connectionChange
  | pollTick
deriving DecidableEq, Repr

/-- Dispatch of an environment-level event to the monitor: a window event
reaches it only while the window listeners are attached, a connection
`change` event only while the `change` handler is attached, and a poll tick
(which runs `refreshNetworkInfo`) only while the interval timer is live. -/
def dispatch (m : Monitor) (env : Env) (e : EnvEvent) : Monitor × CallLog :=
  match e with
  | EnvEvent.becameOnline =>
    if m.windowAttached then handleTrigger m env else (m, [])
  | EnvEvent.becameOffline =>
    if m.windowAttached then handleTrigger m env else (m, [])
  | EnvEvent.connectionChange =>
    if m.connAttached then handleTrigger m env else (m, [])
  | EnvEvent.pollTick =>
    if m.pollingId then
      let r := refreshNetworkInfo m env
      (r.1, r.2.2)
    else (m, [])

/-- `destroy()`: runs `_cleanup` when non-null (detaching the window and
connection listeners and stopping the interval timer), nulls it, and clears
the listener registry. When `_cleanup` is null nothing but the registry is
touched. -/
def destroy (m : Monitor) : Monitor :=
  let m1 :=
    if m.hasCleanup then
      { m with windowAttached := false, connAttached := false,
               pollingId := false, hasCleanup := false }
    else m
  { m1 with listeners := [] }

/-- The snapshot computed in an empty environment; used as the out-of-range
default when reading the snapshot store. -/
def defaultInfo : NetworkInfo :=
  { online := true, type := NetworkType.unknown, speed := NetworkSpeed.unknown,
    downlink := none, rtt := none, effectiveType := none, saveData := none }

/-- `get networkInfo()` returns `{ ...this._networkInfo }`, a fresh shallow
copy. Modelled with an explicit store of snapshot objects addressed by
index: the stored snapshot lives at `ref`, and the getter appends a copy of
its fields at a fresh address and returns that address. -/
def networkInfoGet (heap : List NetworkInfo) (ref : ℕ) : List NetworkInfo × ℕ :=
  (heap ++ [heap.getD ref defaultInfo], heap.length)

/-- Overwriting one field (or all of them) of the object at address `r`. -/
def writeRef (heap : List NetworkInfo) (r : ℕ) (v : NetworkInfo) : List NetworkInfo :=
  heap.set r v

/-! ## Helper lemmas -/

theorem notifyListeners_eq_map (ls : List Listener) (info : NetworkInfo) :
    notifyListeners ls info = ls.map (fun l => (l.id, info)) := by
  induction ls with
  | nil => rfl
  | cons l rest ih =>
    unfold notifyListeners
    cases h : invokeListener l info <;> simp [ih]

theorem hasNetworkInfoChanged_iff (o n : NetworkInfo) :
    hasNetworkInfoChanged o n = true ↔ o ≠ n := by
  cases o; cases n
  simp only [hasNetworkInfoChanged, Bool.or_eq_true, decide_eq_true_eq, ne_eq,
    NetworkInfo.mk.injEq, not_and]
  tauto

theorem hasNetworkInfoChanged_self (n : NetworkInfo) :
    hasNetworkInfoChanged n n = false := by
  by_contra h
  have := (hasNetworkInfoChanged_iff n n).1 (by
    cases hb : hasNetworkInfoChanged n n
    · exact absurd hb h
    · rfl)
  exact this rfl

/-! ## C6 -/

/-- C6: for every connection descriptor (any combination of `type`,
`effectiveType`, `downlink`, `rtt`, `saveData`), if the environment reports
offline (`navigator` exists and `navigator.onLine` is `false`) then
`getNetworkType` yields `offline` and `getNetworkSpeed` yields `unknown`. -/
theorem offline_overrides (env : Env)
    (h1 : env.hasNavigator = true) (h2 : env.onLine = some false) :
    getNetworkType env = NetworkType.offline ∧
    getNetworkSpeed env = NetworkSpeed.unknown := by
  have honline : isOnline env = false := by
    simp [isOnline, h1, h2]
  exact ⟨by simp [getNetworkType, honline], by simp [getNetworkSpeed, honline]⟩

theorem offline_overrides_witness :
    getNetworkType ⟨true, true, some false,
      some ⟨some "wifi", some "4g", some 100, some 10, some true⟩⟩ =
        NetworkType.offline ∧
    getNetworkSpeed ⟨true, true, some false,
      some ⟨some "wifi", some "4g", some 100, some 10, some true⟩⟩ =
        NetworkSpeed.unknown :=
  offline_overrides ⟨true, true, some false,
    some ⟨some "wifi", some "4g", some 100, some 10, some true⟩⟩ rfl rfl

/-! ## C7 -/

/-- C7 counterexample: with the environment online and a descriptor present
whose `downlink` is the present value `0`, the band lookup of the claim demands
`slow` (`0 < 0.5`), but `getNetworkSpeed` returns `unknown` because the
guard `!connection.downlink` treats `0` as falsy. -/
theorem speed_zero_downlink_counterexample :
    getNetworkSpeed ⟨true, true, some true, some ⟨none, none, some 0, none, none⟩⟩ =
      NetworkSpeed.unknown ∧
    NetworkSpeed.unknown ≠ NetworkSpeed.slow := by
  refine ⟨rfl, by decide⟩

/-- C7 amended: for every online state with a descriptor present, the
classified speed is `unknown` exactly when `downlink` is absent or `0`, and
otherwise is the first matching band with strict upper bounds:
`downlink < 0.5` slow, `0.5 ≤ downlink < 2` moderate, `2 ≤ downlink < 10`
good, `downlink ≥ 10` excellent. -/
theorem speed_banding_amended (env : Env) (c : Connection)
    (h1 : isOnline env = true) (h2 : getNetworkConnection env = some c) :
    (getNetworkSpeed env = NetworkSpeed.unknown ↔
      (c.downlink = none ∨ c.downlink = some 0)) ∧
    (∀ d : ℚ, c.downlink = some d → d ≠ 0 →
      (d < 1/2 → getNetworkSpeed env = NetworkSpeed.slow) ∧
      (1/2 ≤ d → d < 2 → getNetworkSpeed env = NetworkSpeed.moderate) ∧
      (2 ≤ d → d < 10 → getNetworkSpeed env = NetworkSpeed.good) ∧
      (10 ≤ d → getNetworkSpeed env = NetworkSpeed.excellent)) := by
  have hspeed : getNetworkSpeed env =
      (match c.downlink with
        | none => NetworkSpeed.unknown
        | some d =>
          if d = 0 then NetworkSpeed.unknown
          else if d < 1/2 then NetworkSpeed.slow
          else if d < 2 then NetworkSpeed.moderate
          else if d < 10 then NetworkSpeed.good
          else NetworkSpeed.excellent) := by
    rw [getNetworkSpeed, h1, h2]
    cases hd : c.downlink with
    | none => simp [numTruthy, hd]
    | some d =>
      by_cases hz : d = 0 <;> simp [numTruthy, hd, hz]
  constructor
  · cases hd : c.downlink with
    | none => simp [hspeed, hd]
    | some d =>
      rw [hspeed]
      by_cases hz : d = 0
      · simp [hd, hz]
      · rw [hd]
        simp only [if_neg hz, hd, Option.some.injEq]
        constructor
        · intro h
          split_ifs at h
        · rintro (h | h)
          · exact absurd h (by simp)
          · exact absurd h hz
  · intro d hd hz
    rw [hspeed, hd]
    simp only [if_neg hz]
    refine ⟨fun h => if_pos h, fun hge hlt => ?_, fun hge hlt => ?_, fun hge => ?_⟩
    · rw [if_neg (by linarith), if_pos hlt]
    · rw [if_neg (by linarith), if_neg (by linarith), if_pos hlt]
    · rw [if_neg (by linarith), if_neg (by linarith), if_neg (by linarith)]

theorem speed_banding_amended_witness :
    getNetworkSpeed ⟨true, true, some true, some ⟨none, none, some (49/100), none, none⟩⟩ =
      NetworkSpeed.slow ∧
    getNetworkSpeed ⟨true, true, some true, some ⟨none, none, some (1/2), none, none⟩⟩ =
      NetworkSpeed.moderate ∧
    getNetworkSpeed ⟨true, true, some true, some ⟨none, none, some 10, none, none⟩⟩ =
      NetworkSpeed.excellent := by
  refine ⟨?_, ?_, ?_⟩
  · exact ((speed_banding_amended ⟨true, true, some true,
      some ⟨none, none, some (49/100), none, none⟩⟩
      ⟨none, none, some (49/100), none, none⟩ rfl rfl).2 (49/100) rfl
      (by norm_num)).1 (by norm_num)
  · exact (((speed_banding_amended ⟨true, true, some true,
      some ⟨none, none, some (1/2), none, none⟩⟩
      ⟨none, none, some (1/2), none, none⟩ rfl rfl).2 (1/2) rfl
      (by norm_num)).2.1 (by norm_num) (by norm_num))
  · exact (((speed_banding_amended ⟨true, true, some true,
      some ⟨none, none, some 10, none, none⟩⟩
      ⟨none, none, some 10, none, none⟩ rfl rfl).2 10 rfl
      (by norm_num)).2.2.2 (by norm_num))

/-! ## C8 -/

/-- C8 counterexample: with the environment online and a descriptor having
no `type`, no `effectiveType`, `downlink = 100` and the present value
`rtt = 0`, the claim demands `cellular_5g` (`100 ≥ 50` and `0 < 30`), but
`getNetworkType` returns `unknown` because the guard
`connection.downlink && connection.rtt` treats `rtt = 0` as falsy. -/
theorem type_zero_rtt_counterexample :
    getNetworkType ⟨true, true, some true, some ⟨none, none, some 100, some 0, none⟩⟩ =
      NetworkType.unknown ∧
    NetworkType.unknown ≠ NetworkType.cellular5g := by
  refine ⟨rfl, by decide⟩

/-- C8 amended: for every online descriptor with no `type` and no
`effectiveType`, the classified type is `cellular_5g` exactly when both
`downlink` and `rtt` are present, `downlink ≥ 50`, `rtt` is nonzero and
`rtt < 30`; in every other such case it is `unknown`. -/
theorem heuristic_5g_amended (env : Env) (c : Connection)
    (h1 : isOnline env = true) (h2 : getNetworkConnection env = some c)
    (h3 : c.type = none) (h4 : c.effectiveType = none) :
    (getNetworkType env = NetworkType.cellular5g ↔
      (∃ d r : ℚ, c.downlink = some d ∧ c.rtt = some r ∧
        50 ≤ d ∧ r ≠ 0 ∧ r < 30)) ∧
    (getNetworkType env = NetworkType.cellular5g ∨
      getNetworkType env = NetworkType.unknown) := by
  have htype : getNetworkType env =
      (match c.downlink, c.rtt with
        | some d, some r =>
          if d ≠ 0 ∧ r ≠ 0 ∧ 50 ≤ d ∧ r < 30 then NetworkType.cellular5g
          else NetworkType.unknown
        | _, _ => NetworkType.unknown) := by
    rw [getNetworkType, h1, h2]
    cases hd : c.downlink with
    | none => simp [strTruthy, numTruthy, h3, h4, hd]
    | some d =>
      cases hr : c.rtt with
      | none => simp [strTruthy, numTruthy, h3, h4, hd, hr]
      | some r =>
        by_cases hdz : d = 0
        · simp [strTruthy, numTruthy, h3, h4, hd, hr, hdz]
        · by_cases hrz : r = 0
          · simp [strTruthy, numTruthy, h3, h4, hd, hr, hdz, hrz]
          · by_cases hd50 : 50 ≤ d
            · by_cases hr30 : r < 30
              · simp [strTruthy, numTruthy, h3, h4, hd, hr, hdz, hrz, hd50, hr30,
                  ge_iff_le]
              · simp [strTruthy, numTruthy, h3, h4, hd, hr, hdz, hrz, hd50, hr30,
                  ge_iff_le]
            · simp [strTruthy, numTruthy, h3, h4, hd, hr, hdz, hrz, hd50,
                ge_iff_le]
  constructor
  · rw [htype]
    cases hd : c.downlink with
    | none => simp [hd]
    | some d =>
      cases hr : c.rtt with
      | none => simp [hd, hr]
      | some r =>
        simp only [hd, hr, Option.some.injEq]
        constructor
        · intro h
          split_ifs at h with hcond
          exact ⟨d, r, rfl, rfl, hcond.2.2.1, hcond.2.1, hcond.2.2.2⟩
        · rintro ⟨d', r', hd', hr', h50, hrz, h30⟩
          obtain rfl : d' = d := hd'.symm
          obtain rfl : r' = r := hr'.symm
          rw [if_pos ⟨by linarith, hrz, h50, h30⟩]
  · rw [htype]
    cases c.downlink with
    | none => exact Or.inr rfl
    | some d =>
      cases c.rtt with
      | none => exact Or.inr rfl
      | some r =>
        by_cases hcond : d ≠ 0 ∧ r ≠ 0 ∧ 50 ≤ d ∧ r < 30
        · refine Or.inl ?_
          show (if d ≠ 0 ∧ r ≠ 0 ∧ 50 ≤ d ∧ r < 30 then NetworkType.cellular5g
            else NetworkType.unknown) = NetworkType.cellular5g
          rw [if_pos hcond]
        · refine Or.inr ?_
          show (if d ≠ 0 ∧ r ≠ 0 ∧ 50 ≤ d ∧ r < 30 then NetworkType.cellular5g
            else NetworkType.unknown) = NetworkType.unknown
          rw [if_neg hcond]

theorem heuristic_5g_amended_witness :
    getNetworkType ⟨true, true, some true, some ⟨none, none, some 100, some 10, none⟩⟩ =
      NetworkType.cellular5g := by
  have h := heuristic_5g_amended ⟨true, true, some true,
    some ⟨none, none, some 100, some 10, none⟩⟩
    ⟨none, none, some 100, some 10, none⟩ rfl rfl rfl rfl
  exact h.1.2 ⟨100, 10, rfl, rfl, by norm_num, by norm_num, by norm_num⟩

/-! ## C2 -/

theorem refreshNetworkInfo_eq (m : Monitor) (env : Env) :
    refreshNetworkInfo m env =
      ({ m with networkInfo := getNetworkInfo env }, getNetworkInfo env,
        if m.networkInfo ≠ getNetworkInfo env
          then m.listeners.map (fun l => (l.id, getNetworkInfo env)) else []) := by
  unfold refreshNetworkInfo
  by_cases h : m.networkInfo = getNetworkInfo env
  · simp [h, hasNetworkInfoChanged_self]
  · have hc : hasNetworkInfoChanged m.networkInfo (getNetworkInfo env) = true :=
      (hasNetworkInfoChanged_iff _ _).2 h
    simp [hc, h, notifyListeners_eq_map]

/-- C2: `refreshNetworkInfo` recomputes the snapshot from the environment,
stores it, returns it, and notifies the current listeners in registration
order with the new value exactly when the new snapshot differs field-wise
(the field-wise test `_hasNetworkInfoChanged` coincides with inequality of
the seven-field record); an immediately repeated refresh with the
environment unchanged returns an identical snapshot and notifies nobody. -/
theorem refresh_diff_notify (m : Monitor) (env : Env) :
    (refreshNetworkInfo m env).2.1 = getNetworkInfo env ∧
    (refreshNetworkInfo m env).1.networkInfo = getNetworkInfo env ∧
    (refreshNetworkInfo m env).1.listeners = m.listeners ∧
    (hasNetworkInfoChanged m.networkInfo (getNetworkInfo env) = true ↔
      m.networkInfo ≠ getNetworkInfo env) ∧
    (refreshNetworkInfo m env).2.2 =
      (if m.networkInfo ≠ getNetworkInfo env
        then m.listeners.map (fun l => (l.id, getNetworkInfo env)) else []) ∧
    (refreshNetworkInfo (refreshNetworkInfo m env).1 env).2.1 =
      (refreshNetworkInfo m env).2.1 ∧
    (refreshNetworkInfo (refreshNetworkInfo m env).1 env).2.2 = [] := by
  refine ⟨?_, ?_, ?_, hasNetworkInfoChanged_iff m.networkInfo (getNetworkInfo env),
    ?_, ?_, ?_⟩
  · simp [refreshNetworkInfo_eq]
  · simp [refreshNetworkInfo_eq]
  · simp [refreshNetworkInfo_eq]
  · simp [refreshNetworkInfo_eq]
  · rw [refreshNetworkInfo_eq, refreshNetworkInfo_eq]
  · rw [refreshNetworkInfo_eq, refreshNetworkInfo_eq]
    simp

/-! ## C5 -/

/-- C5: each trigger source is equivalent to `refreshNetworkInfo`: the shared
body of the online, offline and connection-`change` callbacks yields exactly
the monitor state and listener notifications of `refreshNetworkInfo`, and so
does the dispatch of each environment event while its handler or timer is
attached (a poll tick literally runs `refreshNetworkInfo`). -/
theorem triggers_equiv_refresh (m : Monitor) (env : Env) :
    (handleTrigger m env =
      ((refreshNetworkInfo m env).1, (refreshNetworkInfo m env).2.2)) ∧
    (m.windowAttached = true →
      dispatch m env EnvEvent.becameOnline =
        ((refreshNetworkInfo m env).1, (refreshNetworkInfo m env).2.2) ∧
      dispatch m env EnvEvent.becameOffline =
        ((refreshNetworkInfo m env).1, (refreshNetworkInfo m env).2.2)) ∧
    (m.connAttached = true →
      dispatch m env EnvEvent.connectionChange =
        ((refreshNetworkInfo m env).1, (refreshNetworkInfo m env).2.2)) ∧
    (m.pollingId = true →
      dispatch m env EnvEvent.pollTick =
        ((refreshNetworkInfo m env).1, (refreshNetworkInfo m env).2.2)) := by
  have hbase : handleTrigger m env =
      ((refreshNetworkInfo m env).1, (refreshNetworkInfo m env).2.2) := by
    rw [refreshNetworkInfo_eq]
    simp only [handleTrigger]
    by_cases h : m.networkInfo = getNetworkInfo env
    · have hc : hasNetworkInfoChanged m.networkInfo (getNetworkInfo env) = false := by
        rw [h]; exact hasNetworkInfoChanged_self _
      rw [hc]
      simp only [Bool.false_eq_true, if_false, if_neg (fun hn : _ ≠ _ => hn h)]
      rw [← h]
    · have hc : hasNetworkInfoChanged m.networkInfo (getNetworkInfo env) = true :=
        (hasNetworkInfoChanged_iff _ _).2 h
      rw [hc]
      simp only [if_pos rfl, if_pos h]
      simp [notifyListeners_eq_map]
  refine ⟨hbase, fun hw => ⟨?_, ?_⟩, fun hc => ?_, fun hp => ?_⟩
  · simp [dispatch, hw, hbase]
  · simp [dispatch, hw, hbase]
  · simp [dispatch, hc, hbase]
  · simp [dispatch, hp]

theorem triggers_equiv_refresh_witness :
    dispatch ⟨defaultInfo, [], true, true, true, some 5000, true⟩
        ⟨true, true, some false, none⟩ EnvEvent.becameOffline =
      ((refreshNetworkInfo ⟨defaultInfo, [], true, true, true, some 5000, true⟩
          ⟨true, true, some false, none⟩).1,
        (refreshNetworkInfo ⟨defaultInfo, [], true, true, true, some 5000, true⟩
          ⟨true, true, some false, none⟩).2.2) :=
  ((triggers_equiv_refresh ⟨defaultInfo, [], true, true, true, some 5000, true⟩
    ⟨true, true, some false, none⟩).2.1 rfl).2

/-! ## C3 -/

/-- C3 counterexample: with a listener function already registered once,
registering the same function again and then calling the unsubscribe handle
returned by that second registration empties the registry — `filter(x =>
x !== listener)` removes every registration of the function, not exactly the
one the handle came from, so the earlier registration is lost too. -/
theorem unsubscribe_removes_duplicate_counterexample :
    (unsubscribe
        (addListener ⟨defaultInfo, [⟨0, false⟩], true, false, true, none, false⟩
          ⟨0, false⟩).1
        ⟨0, false⟩).listeners = [] ∧
    ([] : List Listener) ≠ [⟨0, false⟩] := by
  constructor
  · rfl
  · simp

/-- C3 amended: `addListener` invokes the new listener synchronously exactly
once with the current snapshot and appends it to the registry; the returned
unsubscribe handle removes every registration of that listener function — in
particular, when the function was not previously registered, it removes
exactly the new registration, restoring the previous state — and calling the
handle more than once is idempotent and safe. -/
theorem addListener_unsubscribe_amended (m : Monitor) (l : Listener)
    (h : l ∉ m.listeners) :
    (addListener m l).2 = [(l.id, m.networkInfo)] ∧
    (addListener m l).1.listeners = m.listeners ++ [l] ∧
    unsubscribe (addListener m l).1 l = m ∧
    (∀ m' : Monitor, unsubscribe (unsubscribe m' l) l = unsubscribe m' l) := by
  refine ⟨rfl, rfl, ?_, ?_⟩
  · have hfil : (m.listeners ++ [l]).filter (fun x => x ≠ l) = m.listeners := by
      rw [List.filter_append]
      have h1 : m.listeners.filter (fun x => x ≠ l) = m.listeners := by
        apply List.filter_eq_self.2
        intro x hx
        have hxl : x ≠ l := fun he => h (he ▸ hx)
        simp [hxl]
      have h2 : ([l].filter (fun x => x ≠ l) : List Listener) = [] := by simp
      rw [h1, h2, List.append_nil]
    show ({ m with listeners := (m.listeners ++ [l]).filter (fun x => x ≠ l) } : Monitor) = m
    rw [hfil]
  · intro m'
    unfold unsubscribe
    rw [List.filter_filter]
    simp

theorem addListener_unsubscribe_amended_witness :
    (addListener ⟨defaultInfo, [], true, false, true, none, false⟩ ⟨0, false⟩).2 =
      [(0, defaultInfo)] ∧
    unsubscribe
        (addListener ⟨defaultInfo, [], true, false, true, none, false⟩ ⟨0, false⟩).1
        ⟨0, false⟩ =
      ⟨defaultInfo, [], true, false, true, none, false⟩ := by
  have h := addListener_unsubscribe_amended
    ⟨defaultInfo, [], true, false, true, none, false⟩ ⟨0, false⟩ (by simp)
  exact ⟨h.1, h.2.2.1⟩

/-! ## C4 -/

/-- C4: during one notification batch triggered by a refresh that detected a
change, a throwing listener does not disturb the batch: the invocation log
covers every registered listener in order, each later listener is still
invoked with the same new snapshot, the fault of the throwing listener is raised
but swallowed (the notifier returns the full log instead of propagating),
and the throwing listener is still in the registry afterwards. -/
theorem listener_fault_isolated (m : Monitor) (env : Env)
    (pre post : List Listener) (t : Listener)
    (hl : m.listeners = pre ++ t :: post) (ht : t.throws = true)
    (hch : m.networkInfo ≠ getNetworkInfo env) :
    (refreshNetworkInfo m env).2.2 =
      (pre ++ t :: post).map (fun l => (l.id, getNetworkInfo env)) ∧
    (∀ l ∈ post, (l.id, getNetworkInfo env) ∈ (refreshNetworkInfo m env).2.2) ∧
    invokeListener t (getNetworkInfo env) = Except.error "listener error" ∧
    (refreshNetworkInfo m env).1.listeners = pre ++ t :: post := by
  rw [refreshNetworkInfo_eq]
  simp only [if_pos hch, hl]
  refine ⟨trivial, ?_, ?_, trivial⟩
  · intro l hlmem
    exact List.mem_map.2 ⟨l, by simp [hlmem], rfl⟩
  · simp [invokeListener, ht]

theorem listener_fault_isolated_witness :
    (refreshNetworkInfo
        ⟨defaultInfo, [⟨0, false⟩, ⟨1, true⟩, ⟨2, false⟩], true, false, true,
          none, false⟩
        ⟨true, true, some false, none⟩).2.2 =
      [(0, getNetworkInfo ⟨true, true, some false, none⟩),
        (1, getNetworkInfo ⟨true, true, some false, none⟩),
        (2, getNetworkInfo ⟨true, true, some false, none⟩)] ∧
    (refreshNetworkInfo
        ⟨defaultInfo, [⟨0, false⟩, ⟨1, true⟩, ⟨2, false⟩], true, false, true,
          none, false⟩
        ⟨true, true, some false, none⟩).1.listeners =
      [⟨0, false⟩, ⟨1, true⟩, ⟨2, false⟩] := by
  have h := listener_fault_isolated
    ⟨defaultInfo, [⟨0, false⟩, ⟨1, true⟩, ⟨2, false⟩], true, false, true,
      none, false⟩
    ⟨true, true, some false, none⟩ [⟨0, false⟩] [⟨2, false⟩] ⟨1, true⟩
    rfl rfl (by decide)
  exact ⟨h.1, h.2.2.2⟩

/-! ## C1 -/

/-- C1 failing run: in an environment with no `window` (so `_setupListeners`
returns before installing `_cleanup`) and a positive polling interval, the
poll timer survives `destroy()` — `pollingId` is still live — and a
subsequent poll tick still recomputes and replaces the stored snapshot (here
the environment has meanwhile started reporting offline); only the re-entrant
`destroy()` no-op part of the claim holds. -/
theorem destroy_windowless_polling_bug :
    (destroy (NetworkMonitor.init ⟨false, false, none, none⟩ 5000)).pollingId =
      true ∧
    (dispatch (destroy (NetworkMonitor.init ⟨false, false, none, none⟩ 5000))
        ⟨false, true, some false, none⟩ EnvEvent.pollTick).1.networkInfo ≠
      (destroy (NetworkMonitor.init ⟨false, false, none, none⟩ 5000)).networkInfo ∧
    destroy (destroy (NetworkMonitor.init ⟨false, false, none, none⟩ 5000)) =
      destroy (NetworkMonitor.init ⟨false, false, none, none⟩ 5000) := by
  refine ⟨rfl, by decide, rfl⟩

/-! ## C9 -/

theorem sum_drop_one {l : List ℚ} (h : l ≠ []) :
    (l.drop 1).sum = l.sum - l.head h := by
  cases l with
  | nil => exact absurd rfl h
  | cons a t => simp

theorem sum_dropLast {l : List ℚ} (h : l ≠ []) :
    l.dropLast.sum = l.sum - l.getLast h := by
  have h3 := congrArg List.sum (List.dropLast_append_getLast h)
  rw [List.sum_append] at h3
  simp only [List.sum_cons, List.sum_nil, add_zero] at h3
  linarith

theorem sorted_head_le {l : List ℚ} (hs : l.Sorted (· ≤ ·)) (h : l ≠ []) :
    ∀ x ∈ l, l.head h ≤ x := by
  cases l with
  | nil => exact absurd rfl h
  | cons a t =>
    intro x hx
    rcases List.mem_cons.1 hx with rfl | hx2
    · exact le_refl x
    · exact List.rel_of_sorted_cons hs x hx2

theorem sorted_le_getLast {l : List ℚ} (hs : l.Sorted (· ≤ ·)) (h : l ≠ []) :
    ∀ x ∈ l, x ≤ l.getLast h := by
  induction l with
  | nil => exact absurd rfl h
  | cons a t ih =>
    intro x hx
    cases t with
    | nil =>
      rcases List.mem_cons.1 hx with rfl | hx2
      · simp [List.getLast]
      · cases hx2
    | cons b u =>
      have hbu : (b :: u) ≠ [] := by simp
      rw [List.getLast_cons hbu]
      rcases List.mem_cons.1 hx with rfl | hx2
      · calc x ≤ b := List.rel_of_sorted_cons hs b (by simp)
          _ ≤ (b :: u).getLast hbu := ih hs.of_cons hbu b (by simp)
      · exact ih hs.of_cons hbu x hx2

theorem trimOutliers_spec (s : List ℚ) (h : 2 < s.length) :
    ∃ lo hi, lo ∈ s ∧ hi ∈ s ∧ (∀ x ∈ s, lo ≤ x) ∧ (∀ x ∈ s, x ≤ hi) ∧
      (trimOutliers s).sum = s.sum - lo - hi ∧
      (trimOutliers s).length = s.length - 2 := by
  have hperm : List.Perm (s.insertionSort (· ≤ ·)) s := List.perm_insertionSort _ s
  have hsorted : (s.insertionSort (· ≤ ·)).Sorted (· ≤ ·) :=
    List.sorted_insertionSort _ s
  have hlent : (s.insertionSort (· ≤ ·)).length = s.length := hperm.length_eq
  have htne : s.insertionSort (· ≤ ·) ≠ [] := by
    intro h0
    rw [h0] at hlent
    simp at hlent
    omega
  obtain ⟨a, r, hcase⟩ := List.exists_cons_of_ne_nil htne
  rw [hcase] at hperm hsorted hlent
  have hrne : r ≠ [] := by
    intro h0
    rw [h0] at hlent
    simp at hlent
    omega
  have htrim : trimOutliers s = r.dropLast := by
    unfold trimOutliers
    rw [if_pos h, hcase]
    rfl
  refine ⟨a, r.getLast hrne, ?_, ?_, ?_, ?_, ?_, ?_⟩
  · exact (hperm.mem_iff).1 (List.mem_cons_self a r)
  · exact (hperm.mem_iff).1 (List.mem_cons_of_mem a (List.getLast_mem hrne))
  · intro x hx
    exact sorted_head_le hsorted (List.cons_ne_nil a r) x ((hperm.mem_iff).2 hx)
  · intro x hx
    have hx2 := sorted_le_getLast hsorted (List.cons_ne_nil a r) x
      ((hperm.mem_iff).2 hx)
    exact hx2.trans_eq (List.getLast_cons hrne)
  · have hsum : a + r.sum = s.sum := by
      have := hperm.sum_eq
      simpa using this
    rw [htrim, sum_dropLast hrne]
    linarith
  · rw [htrim, List.length_dropLast]
    simp at hlent
    omega

/-- C9: the latency probe fails with `noSamples` when zero round trips
succeed; returns the plain mean of the successful durations when one or two
succeed; when more than two succeed it discards one minimum and one maximum
of them and averages the rest; on the successful samples
`[50, 52, 48, 500, 51]` ms it yields `51` ms. -/
theorem latency_trimmed_mean (outcomes : List RoundTrip) :
    (outcomes.filterMap id = [] →
      measureNetworkLatency outcomes = Except.error ProbeError.noSamples) ∧
    (outcomes.filterMap id ≠ [] → (outcomes.filterMap id).length ≤ 2 →
      measureNetworkLatency outcomes =
        Except.ok ((outcomes.filterMap id).sum /
          ((outcomes.filterMap id).length : ℚ))) ∧
    (2 < (outcomes.filterMap id).length →
      ∃ lo hi, lo ∈ outcomes.filterMap id ∧ hi ∈ outcomes.filterMap id ∧
        (∀ x ∈ outcomes.filterMap id, lo ≤ x) ∧
        (∀ x ∈ outcomes.filterMap id, x ≤ hi) ∧
        measureNetworkLatency outcomes =
          Except.ok (((outcomes.filterMap id).sum - lo - hi) /
            ((((outcomes.filterMap id).length - 2 : ℕ)) : ℚ))) ∧
    measureNetworkLatency [some 50, some 52, some 48, some 500, some 51] =
      Except.ok 51 := by
  refine ⟨?_, ?_, ?_, ?_⟩
  · intro h
    unfold measureNetworkLatency
    rw [h]
    rfl
  · intro hne hle
    have hlen0 : (outcomes.filterMap id).length ≠ 0 := by
      intro h0
      exact hne (List.length_eq_zero.1 h0)
    have hngt : ¬ (outcomes.filterMap id).length > 2 := by omega
    unfold measureNetworkLatency trimOutliers
    rw [if_neg hlen0, if_neg hngt]
  · intro hgt
    obtain ⟨lo, hi, hlo, hhi, hlob, hhib, hsum, hlen⟩ :=
      trimOutliers_spec (outcomes.filterMap id) hgt
    refine ⟨lo, hi, hlo, hhi, hlob, hhib, ?_⟩
    have hlen0 : (outcomes.filterMap id).length ≠ 0 := by omega
    unfold measureNetworkLatency
    rw [if_neg hlen0, hsum, hlen]
  · have h1 : trimOutliers [50, 52, 48, 500, 51] = [50, 51, 52] := by rfl
    show Except.ok ((trimOutliers [50, 52, 48, 500, 51]).sum /
        ((trimOutliers [50, 52, 48, 500, 51]).length : ℚ)) = Except.ok 51
    rw [h1]
    norm_num

theorem latency_trimmed_mean_witness :
    measureNetworkLatency [none, none] = Except.error ProbeError.noSamples ∧
    measureNetworkLatency [some 10, none, some 20] =
      Except.ok ((List.filterMap id [some (10 : ℚ), none, some 20]).sum /
        ((List.filterMap id [some (10 : ℚ), none, some 20]).length : ℚ)) ∧
    measureNetworkLatency [some 50, some 52, some 48, some 500, some 51] =
      Except.ok 51 :=
  ⟨(latency_trimmed_mean [none, none]).1 rfl,
    (latency_trimmed_mean [some 10, none, some 20]).2.1 (by decide) (by decide),
    (latency_trimmed_mean [some 50, some 52, some 48, some 500, some 51]).2.2.2⟩

/-! ## C10 -/

/-- C10: the `networkInfo` getter returns a fresh copy of the stored
snapshot: the returned address is new (distinct from the stored one) yet
holds identical field values, and overwriting the returned object with any
value leaves the stored snapshot — and hence every later change-detection
comparison against it — unchanged. -/
theorem networkInfo_getter_copies (heap : List NetworkInfo) (ref : ℕ)
    (h : ref < heap.length) :
    (networkInfoGet heap ref).2 ≠ ref ∧
    (networkInfoGet heap ref).1.getD (networkInfoGet heap ref).2 defaultInfo =
      heap.getD ref defaultInfo ∧
    (∀ v, (writeRef (networkInfoGet heap ref).1 (networkInfoGet heap ref).2
        v).getD ref defaultInfo = heap.getD ref defaultInfo) ∧
    (∀ v x, hasNetworkInfoChanged
        ((writeRef (networkInfoGet heap ref).1 (networkInfoGet heap ref).2
          v).getD ref defaultInfo) x =
      hasNetworkInfoChanged (heap.getD ref defaultInfo) x) := by
  have hwrite : ∀ v : NetworkInfo,
      (writeRef (networkInfoGet heap ref).1 (networkInfoGet heap ref).2 v).getD
        ref defaultInfo = heap.getD ref defaultInfo := by
    intro v
    unfold writeRef networkInfoGet
    rw [List.getD_eq_getElem?_getD, List.getD_eq_getElem?_getD]
    rw [List.getElem?_set_ne (by omega)]
    rw [List.getElem?_append, if_pos h]
  refine ⟨by show heap.length ≠ ref; omega, ?_, hwrite, ?_⟩
  · unfold networkInfoGet
    rw [List.getD_eq_getElem?_getD, List.getElem?_concat_length]
    rfl
  · intro v x
    rw [hwrite v]

theorem networkInfo_getter_copies_witness :
    (networkInfoGet [defaultInfo] 0).2 ≠ 0 ∧
    (writeRef (networkInfoGet [defaultInfo] 0).1 (networkInfoGet [defaultInfo] 0).2
        ⟨false, NetworkType.offline, NetworkSpeed.unknown, none, none, none,
          none⟩).getD 0 defaultInfo = [defaultInfo].getD 0 defaultInfo := by
  have h := networkInfo_getter_copies [defaultInfo] 0 (by decide)
  exact ⟨h.1, h.2.2.1 ⟨false, NetworkType.offline, NetworkSpeed.unknown, none,
    none, none, none⟩⟩
